import Mathlib

/-!
# chilogger: request-logging middleware

A shallow embedding of `middleware.go` (package `chilogger`).  The wrapped
handler is modelled as a pure function from its inputs (the request, the two
clock readings, the behaviour of the downstream handler, the response-writer
wrapper) to an execution: the trace of observable events and the way the call
ended (normal return or panic).
-/

namespace ChiLogger

/-! ## Go values, fields and log payloads -/

/-- Kinds of a `zapcore.Field` that the middleware constructs. -/
inductive FieldType
  | Int64Type
  | DurationType
  | StringType
deriving DecidableEq, Repr

/-- A `zapcore.Field`: key, kind, integer payload and string payload. -/
structure Field where
  Key : String
  Kind : FieldType
  Integer : Int
  Str : String
deriving DecidableEq, Repr

/-- A Go `interface{}` value, restricted to the dynamic types that occur in this program. -/
inductive GoValue
  | nil
  | string (s : String)
  | int (i : Int)
  | int64 (i : Int)
  | duration (ns : Int)
  | field (f : Field)
deriving DecidableEq, Repr

/-- Go `zap.Int64(key, val)`. -/
def zap.Int64 (key : String) (val : Int) : Field := ⟨key, .Int64Type, val, ""⟩

/-- Go `zap.Duration(key, val)`. -/
def zap.Duration (key : String) (val : Int) : Field := ⟨key, .DurationType, val, ""⟩

/-- Go `zap.Int(key, val)`, which is `Int64(key, int64(val))`. -/
def zap.Int (key : String) (val : Int) : Field := zap.Int64 key val

/-- Go `zap.String(key, val)`. -/
def zap.String (key : String) (val : String) : Field := ⟨key, .StringType, 0, val⟩

namespace logrus

/-- Go `logrus.Fields`, a `map[string]interface{}`, as an association list without duplicate keys. -/
abbrev Fields := List (String × GoValue)

/-- Map assignment `m[k] = v`: replaces the value of an existing key, adds the key otherwise. -/
def Fields.set : Fields → String → GoValue → Fields
  | [], k, v => [(k, v)]
  | (k', v') :: m, k, v => if k' = k then (k, v) :: m else (k', v') :: Fields.set m k v

/-- Evaluation of a map literal: the entries are assigned in source order. -/
def Fields.literal (entries : List (String × GoValue)) : Fields :=
  entries.foldl (fun m e => Fields.set m e.1 e.2) []

end logrus

/-- Severity of an emission. -/
inductive Level
  | debug
  | info
  | warn
  | error
deriving DecidableEq, Repr

/-- The logger handle that received a call; the number identifies the pointed-to logger. -/
inductive LoggerRef
  | zap (p : Nat)
  | sugared (p : Nat)
  | logrus (p : Nat)
deriving DecidableEq, Repr

/-- The three call shapes: `Logger.Info(msg, fields...)`, `SugaredLogger.Infow(msg, keysAndValues...)`
and `Logger.WithFields(fields).Info(msg)`. -/
inductive Payload
  | strict (fields : List Field)
  | loose (keysAndValues : List GoValue)
  | fieldMap (fields : logrus.Fields)
deriving DecidableEq, Repr

/-- One call into a logging sink. -/
structure Emission where
  logger : LoggerRef
  level : Level
  msg : String
  payload : Payload
deriving DecidableEq, Repr

/-! ## Requests, context, downstream handlers -/

/-- Context keys: `middleware.RequestIDKey` and any other key. -/
inductive CtxKey
  | RequestIDKey
  | other (n : Nat)
deriving DecidableEq, Repr

/-- A request context as the chain of `WithValue` bindings, innermost first. -/
abbrev Context := List (CtxKey × GoValue)

/-- Go `ctx.Value(key)`: the innermost binding of the key, `nil` when there is none. -/
def Context.Value : Context → CtxKey → GoValue
  | [], _ => .nil
  | (k', v) :: rest, k => if k' = k then v else Context.Value rest k

/-- The parts of `*http.Request` that the middleware reads. -/
structure Request where
  Method : String
  RequestURI : String
  RemoteAddr : String
  ProtoMajor : Int
  ctx : Context
deriving DecidableEq, Repr

/-- The value carried by a Go panic. -/
inductive PanicValue
  | typeAssertion (dynamic : GoValue)
  | value (v : GoValue)
deriving DecidableEq, Repr

/-- A call made by the downstream handler on the writer it was given, among the methods of
the wrapper that change what it records: `WriteHeader(code)`, `Write` (with the count the
underlying writer returned), `Flush()`, `ReadFrom` (with the count read) and `Tee(w)` (with
whether `w` is non-nil).  `Flush` and `ReadFrom` exist on the wrapper when the underlying
writer has them. -/
inductive WriterCall
  | WriteHeader (code : Int)
  | Write (n : Nat)
  | Flush
  | ReadFrom (n : Nat)
  | Tee (set : Bool)
deriving DecidableEq, Repr

/-- How a call ended. -/
inductive Outcome
  | returned
  | panicked (v : PanicValue)
deriving DecidableEq, Repr

/-- What one run of `next.ServeHTTP(ww, r)` does: its calls on the writer, the state in which
it leaves the request it received by pointer (a handler may assign to the fields of `*r`),
and how it ends. -/
structure ServeResult where
  calls : List WriterCall
  request : Request
  outcome : Outcome
deriving DecidableEq, Repr

/-- A downstream `http.Handler`, as its behaviour on each request. -/
abbrev Handler := Request → ServeResult

/-- The status-observing wrapper `middleware.WrapResponseWriter` of go-chi, which is a
dependency outside this package: the middleware only creates it, hands it downstream and
reads `Status()`.  The embedding takes its implementation as a parameter. -/
structure WrapResponseWriter where
  State : Type
  NewWrapResponseWriter : Int → State
  WriteHeader : State → Int → State
  Write : State → Nat → State
  Flush : State → State
  ReadFrom : State → Nat → State
  Tee : State → Bool → State
  Status : State → Int

/-- Dispatch of one downstream writer call on the wrapper. -/
def WrapResponseWriter.call (W : WrapResponseWriter) (ww : W.State) : WriterCall → W.State
  | .WriteHeader code => W.WriteHeader ww code
  | .Write n => W.Write ww n
  | .Flush => W.Flush ww
  | .ReadFrom n => W.ReadFrom ww n
  | .Tee set => W.Tee ww set

/-- State of go-chi's `basicWriter` (`middleware/wrap_writer.go` of the dependency
`github.com/go-chi/chi`), the type behind every wrapper that `NewWrapResponseWriter` returns;
`tee` tells whether a tee writer is set. -/
structure basicWriter where
  wroteHeader : Bool
  code : Int
  bytes : Nat
  tee : Bool
deriving DecidableEq, Repr

/-- Go `(*basicWriter).WriteHeader` of go-chi: only the first call records the code. -/
def basicWriter.WriteHeader (b : basicWriter) (code : Int) : basicWriter :=
  if !b.wroteHeader then { b with code := code, wroteHeader := true } else b

/-- Go `(*basicWriter).maybeWriteHeader` of go-chi: `WriteHeader(http.StatusOK)` unless written. -/
def basicWriter.maybeWriteHeader (b : basicWriter) : basicWriter :=
  if !b.wroteHeader then b.WriteHeader 200 else b

/-- Go `(*basicWriter).Write` of go-chi: writes the implicit header first, then adds the count
returned by the underlying writer. -/
def basicWriter.Write (b : basicWriter) (n : Nat) : basicWriter :=
  let b := b.maybeWriteHeader
  { b with bytes := b.bytes + n }

/-- Go `Flush` of go-chi's `flushWriter`, `httpFancyWriter` and `http2FancyWriter`: marks the
header as written and leaves the recorded code as it is. -/
def basicWriter.Flush (b : basicWriter) : basicWriter :=
  { b with wroteHeader := true }

/-- Go `(*httpFancyWriter).ReadFrom` of go-chi.  Without a tee writer: the implicit header,
then the count read is added.  With one: `io.Copy` into the `basicWriter`, which calls `Write`
when something was read, and the count is added once more. -/
def basicWriter.ReadFrom (b : basicWriter) (n : Nat) : basicWriter :=
  if b.tee then
    let b := if n = 0 then b else b.Write n
    { b with bytes := b.bytes + n }
  else
    let b := b.maybeWriteHeader
    { b with bytes := b.bytes + n }

/-- Go `(*basicWriter).Tee` of go-chi: sets the tee writer. -/
def basicWriter.Tee (b : basicWriter) (set : Bool) : basicWriter :=
  { b with tee := set }

/-- Go `(*basicWriter).Status` of go-chi: "the HTTP status of the request, or 0 if one has not
yet been sent". -/
def basicWriter.Status (b : basicWriter) : Int := b.code

/-- The go-chi wrapper as an instance of the writer parameter; `NewWrapResponseWriter` starts
from the zero value of `basicWriter` for every protocol version. -/
def chiWriter : WrapResponseWriter where
  State := basicWriter
  NewWrapResponseWriter := fun _ => ⟨false, 0, 0, false⟩
  WriteHeader := basicWriter.WriteHeader
  Write := basicWriter.Write
  Flush := basicWriter.Flush
  ReadFrom := basicWriter.ReadFrom
  Tee := basicWriter.Tee
  Status := basicWriter.Status

/-! ## Time -/

/-- Largest `time.Duration` (int64 nanoseconds). -/
def maxDuration : Int := 2 ^ 63 - 1

/-- Smallest `time.Duration`. -/
def minDuration : Int := -(2 ^ 63)

/-- Two's-complement wrap of an integer into the int64 range. -/
def wrap64 (x : Int) : Int := (x + 2 ^ 63) % 2 ^ 64 - 2 ^ 63

/-- Go `t.Sub(u)` on monotonic clock readings (int64 nanoseconds): the wrapped difference,
saturated on overflow. -/
def timeSub (t u : Int) : Int :=
  let d := wrap64 (t - u)
  if d < 0 ∧ t > u then maxDuration
  else if d > 0 ∧ t < u then minDuration
  else d

/-- The two readings of the clock in one call: `time.Now()` at entry and the `time.Now()`
inside `time.Since(start)` after the downstream handler has returned. -/
structure Clock where
  start : Int
  finish : Int
deriving DecidableEq, Repr

/-- Go `time.Since(start)`, which is `time.Now().Sub(start)`. -/
def timeSince (clock : Clock) : Int := timeSub clock.finish clock.start

/-- Go `d.Nanoseconds()`, which is `int64(d)`. -/
def Nanoseconds (d : Int) : Int := d

/-! ## The middleware -/

/-- Observable events of one call of the wrapped handler: a completed call
`next.ServeHTTP(ww, r)` with the request as it was handed over and the way the call ended,
and a call into a logging sink. -/
inductive Event
  | serveHTTP (r : Request) (ended : Outcome)
  | log (e : Emission)
deriving DecidableEq, Repr

/-- One execution of the wrapped handler: what happened, in order, and how it ended. -/
structure Exec where
  trace : List Event
  outcome : Outcome
deriving DecidableEq, Repr

/-- The receiver struct: three logger pointers (`none` is the nil pointer) and the name. -/
structure chilogger where
  logZ : Option Nat
  logS : Option Nat
  logL : Option Nat
  name : String
deriving DecidableEq, Repr

/-- Go `fmt.Sprintf("measure#%s.latency", name)`. -/
def latencyKey (name : String) : String := "measure#" ++ name ++ ".latency"

/-- Lines 48-51: the context lookup followed by the unchecked assertion `reqID.(string)`,
which panics on a non-nil value of another dynamic type. -/
def lookupRequestID (r : Request) : Except PanicValue String :=
  match r.ctx.Value .RequestIDKey with
  | .nil => .ok ""
  | .string s => .ok s
  | v => .error (.typeAssertion v)

/-- The six fields common to the two zap branches (lines 59-66 and 72-79). -/
def zapFields (name : String) (status latency : Int) (r : Request) : List Field :=
  [ zap.Int "status" status,
    zap.Duration "took" latency,
    zap.Int64 (latencyKey name) (Nanoseconds latency),
    zap.String "remote" r.RemoteAddr,
    zap.String "request" r.RequestURI,
    zap.String "method" r.Method ]

/-- Lines 57-97: the `switch` over the three logger pointers. -/
def chilogger.emit (c : chilogger) (status latency : Int) (r : Request)
    (requestID : String) : List Emission :=
  match c.logZ, c.logS, c.logL with
  | some z, _, _ =>
    let fields := zapFields c.name status latency r
    let fields := if requestID ≠ "" then fields ++ [zap.String "request-id" requestID] else fields
    [⟨.zap z, .info, "request completed", .strict fields⟩]
  | none, some s, _ =>
    let fields := (zapFields c.name status latency r).map GoValue.field
    let fields :=
      if requestID ≠ "" then fields ++ [GoValue.field (zap.String "request-id" requestID)]
      else fields
    [⟨.sugared s, .info, "request completed", .loose fields⟩]
  | none, none, some l =>
    let fields := logrus.Fields.literal
      [ ("status", .int status),
        ("took", .duration latency),
        (latencyKey c.name, .int64 (Nanoseconds latency)),
        ("remote", .string r.RemoteAddr),
        ("request", .string r.RequestURI),
        ("method", .string r.Method) ]
    let fields := if requestID ≠ "" then fields.set "request-id" (.string requestID) else fields
    [⟨.logrus l, .info, "request completed", .fieldMap fields⟩]
  | none, none, none => []

/-- Lines 45-100: the handler returned by `c.middleware(next)`, run on one request.  The
function has no `recover`, so a panic of the lookup or of the downstream handler ends the call
at that point with that panic value. -/
def chilogger.middleware (W : WrapResponseWriter) (c : chilogger) (next : Handler)
    (clock : Clock) (r : Request) : Exec :=
  -- line 47, `start := time.Now()`, is the reading `clock.start`
  -- lines 48-51
  match lookupRequestID r with
  | .error v => ⟨[], .panicked v⟩
  | .ok requestID =>
    -- line 52
    let ww := W.NewWrapResponseWriter r.ProtoMajor
    -- line 53: the downstream handler receives `ww` and the pointer `r`; it may write to
    -- the wrapper and to the fields of `*r`
    let served := next r
    let ww := served.calls.foldl W.call ww
    let r2 := served.request
    match served.outcome with
    | .panicked v => ⟨[.serveHTTP r (.panicked v)], .panicked v⟩
    | .returned =>
      -- line 55
      let latency := timeSince clock
      -- lines 57-97: the fields are read from `*r` as the downstream handler left it
      ⟨.serveHTTP r .returned :: (c.emit (W.Status ww) latency r2 requestID).map Event.log,
        .returned⟩

/-- Go `NewLogrusMiddleware(name, logger)`. -/
def NewLogrusMiddleware (W : WrapResponseWriter) (name : String) (logger : Option Nat) :
    Handler → Clock → Request → Exec :=
  chilogger.middleware W { logZ := none, logS := none, logL := logger, name := name }

/-- Go `NewZapMiddleware(name, logger)`. -/
def NewZapMiddleware (W : WrapResponseWriter) (name : String) (logger : Option Nat) :
    Handler → Clock → Request → Exec :=
  chilogger.middleware W { logZ := logger, logS := none, logL := none, name := name }

/-- Go `NewZapSugaredMiddleware(name, logger)`. -/
def NewZapSugaredMiddleware (W : WrapResponseWriter) (name : String) (logger : Option Nat) :
    Handler → Clock → Request → Exec :=
  chilogger.middleware W { logZ := none, logS := logger, logL := none, name := name }

/-- Each request of a sequence is served by its own call of the wrapped handler, which keeps
no state between calls. -/
def serveAll (h : Clock → Request → Exec) (reqs : List (Clock × Request)) : List Exec :=
  reqs.map (fun p => h p.1 p.2)

/-! ## Reading the emissions -/

/-- The sink calls of an execution, in order. -/
def Exec.emissions (x : Exec) : List Emission :=
  x.trace.filterMap (fun ev => match ev with
    | .log e => some e
    | .serveHTTP _ _ => none)

/-- The content of a log field, independent of the call shape that carried it. -/
inductive LogValue
  | int (i : Int)
  | duration (ns : Int)
  | str (s : String)
deriving DecidableEq, Repr

/-- Key and content of a zap field. -/
def Field.logical (f : Field) : String × LogValue :=
  match f.Kind with
  | .Int64Type => (f.Key, .int f.Integer)
  | .DurationType => (f.Key, .duration f.Integer)
  | .StringType => (f.Key, .str f.Str)

/-- A strongly-typed field passed among the arguments of `Infow` is taken as it is; loose
key/value pairs are not interpreted here. -/
def GoValue.field? : GoValue → Option Field
  | .field f => some f
  | _ => none

/-- Content of a value stored in a `logrus.Fields` map. -/
def GoValue.logical? : GoValue → Option LogValue
  | .int i => some (.int i)
  | .int64 i => some (.int i)
  | .duration ns => some (.duration ns)
  | .string s => some (.str s)
  | _ => none

/-- Reads every element of a list; the result is defined when every element has a reading. -/
def readAll {α β : Type} (f : α → Option β) : List α → Option (List β)
  | [] => some []
  | a :: rest =>
    match f a, readAll f rest with
    | some b, some bs => some (b :: bs)
    | _, _ => none

/-- The key/content pairs of a payload.  For the field map the list follows the order of
assignment, which carries no meaning. -/
def Payload.fields? : Payload → Option (List (String × LogValue))
  | .strict fields => some (fields.map Field.logical)
  | .loose keysAndValues => (readAll GoValue.field? keysAndValues).map (List.map Field.logical)
  | .fieldMap fields => readAll (fun kv => (kv.2.logical?).map (fun v => (kv.1, v))) fields

/-- The status that go-chi's wrapper reports for a sequence of writer calls, decided by the
first call that commits the header: the code of `WriteHeader`, 200 for a body write (`Write`,
or `ReadFrom` unless a tee writer is set and nothing is read), 0 for `Flush`; 0 when no call
commits it. -/
def recordedStatusFrom (tee : Bool) : List WriterCall → Int
  | [] => 0
  | .WriteHeader code :: _ => code
  | .Write _ :: _ => 200
  | .Flush :: _ => 0
  | .ReadFrom n :: rest => if tee ∧ n = 0 then recordedStatusFrom tee rest else 200
  | .Tee set :: rest => recordedStatusFrom set rest

/-- The status reported for the calls made on a fresh wrapper, which has no tee writer. -/
def recordedStatus (calls : List WriterCall) : Int := recordedStatusFrom false calls

/-- The field set of the per-request contract, in the words of the specification: status,
took, the component-named latency in nanoseconds, remote, request, method, and request-id
when the request id is not empty. -/
def specFieldSet (name : String) (status latency : Int) (r : Request) (requestID : String) :
    List (String × LogValue) :=
  [ ("status", .int status),
    ("took", .duration latency),
    ("measure#" ++ name ++ ".latency", .int latency),
    ("remote", .str r.RemoteAddr),
    ("request", .str r.RequestURI),
    ("method", .str r.Method) ] ++
  (if requestID = "" then [] else [("request-id", .str requestID)])

/-- Logical equivalence of two field lists: the same keys, and the same content under each key. -/
def SameFields (a b : List (String × LogValue)) : Prop :=
  (∀ k, k ∈ a.map Prod.fst ↔ k ∈ b.map Prod.fst) ∧ ∀ k, a.lookup k = b.lookup k

/-- Two emissions with the same log content: the same severity, the same message and
logically equivalent field lists, whatever the call shape. -/
def Emission.SameContent (a b : Emission) : Prop :=
  a.level = b.level ∧ a.msg = b.msg ∧
    ∃ fa fb, a.payload.fields? = some fa ∧ b.payload.fields? = some fb ∧ SameFields fa fb

/-- A sink is bound: some logger pointer of the receiver is not nil. -/
def chilogger.SinkBound (c : chilogger) : Prop :=
  c.logZ ≠ none ∨ c.logS ≠ none ∨ c.logL ≠ none

/-- The wrapper state that `Status()` is read from: a fresh wrapper after the downstream calls. -/
def observed (W : WrapResponseWriter) (next : Handler) (r : Request) : W.State :=
  (next r).calls.foldl W.call (W.NewWrapResponseWriter r.ProtoMajor)

/-! ## Concrete inputs -/

/-- The request of the scenario: GET `/widgets?x=1` from `10.0.0.5:443` with request id
`abc-123` in its context. -/
def scenarioRequest : Request :=
  ⟨"GET", "/widgets?x=1", "10.0.0.5:443", 1, [(.RequestIDKey, .string "abc-123")]⟩

/-- The same request with no request id in its context. -/
def scenarioRequestNoID : Request := ⟨"GET", "/widgets?x=1", "10.0.0.5:443", 1, []⟩

/-- A request whose context binds the request-id key to an integer. -/
def intIDRequest : Request :=
  ⟨"GET", "/widgets?x=1", "10.0.0.5:443", 1, [(.RequestIDKey, .int 42)]⟩

/-- A downstream handler that sets status 201 and returns. -/
def createdHandler : Handler := fun r => ⟨[.WriteHeader 201], r, .returned⟩

/-- A downstream handler that returns without writing a header or a body. -/
def silentHandler : Handler := fun r => ⟨[], r, .returned⟩

/-- A downstream handler that writes three bytes and then panics. -/
def panickingHandler : Handler :=
  fun r => ⟨[.Write 3], r, .panicked (.value (.string "boom"))⟩

/-- A downstream handler that flushes before it writes three bytes. -/
def flushingHandler : Handler := fun r => ⟨[.Flush, .Write 3], r, .returned⟩

/-- A downstream handler that, as go-chi's `RealIP` does, assigns a forwarded address to
`r.RemoteAddr`, then answers 200. -/
def realIPHandler : Handler :=
  fun r => ⟨[.WriteHeader 200], { r with RemoteAddr := "203.0.113.9" }, .returned⟩

/-- Clock readings 5ms apart. -/
def scenarioClock : Clock := ⟨1000, 5001000⟩

/-! ## Auxiliary facts -/

theorem latencyKey_data (name : String) :
    (latencyKey name).data = "measure#".data ++ (name.data ++ ".latency".data) := by
  simp [latencyKey, String.data_append]

theorem latencyKey_ne_fixed (name : String) :
    latencyKey name ≠ "status" ∧ latencyKey name ≠ "took" ∧ latencyKey name ≠ "remote" ∧
    latencyKey name ≠ "request" ∧ latencyKey name ≠ "method" ∧
    latencyKey name ≠ "request-id" := by
  refine ⟨?_, ?_, ?_, ?_, ?_, ?_⟩ <;>
  · intro h
    have hd := congrArg String.data h
    rw [latencyKey_data] at hd
    simp at hd

theorem specFieldSet_eq (name : String) (status latency : Int) (r : Request)
    (requestID : String) :
    specFieldSet name status latency r requestID =
      [ ("status", .int status), ("took", .duration latency), (latencyKey name, .int latency),
        ("remote", .str r.RemoteAddr), ("request", .str r.RequestURI),
        ("method", .str r.Method) ] ++
      (if requestID = "" then [] else [("request-id", .str requestID)]) := rfl

theorem literal_six (name : String) (v1 v2 v3 v4 v5 v6 : GoValue) :
    logrus.Fields.literal
      [("status", v1), ("took", v2), (latencyKey name, v3), ("remote", v4), ("request", v5),
        ("method", v6)] =
      [("status", v1), ("took", v2), (latencyKey name, v3), ("remote", v4), ("request", v5),
        ("method", v6)] := by
  obtain ⟨h1, h2, h3, h4, h5, -⟩ := latencyKey_ne_fixed name
  simp [logrus.Fields.literal, logrus.Fields.set, h1, h2, h3, h4, h5, Ne.symm h1, Ne.symm h2]

theorem set_request_id (name : String) (v1 v2 v3 v4 v5 v6 v7 : GoValue) :
    logrus.Fields.set
      [("status", v1), ("took", v2), (latencyKey name, v3), ("remote", v4), ("request", v5),
        ("method", v6)] "request-id" v7 =
      [("status", v1), ("took", v2), (latencyKey name, v3), ("remote", v4), ("request", v5),
        ("method", v6), ("request-id", v7)] := by
  obtain ⟨-, -, -, -, -, h6⟩ := latencyKey_ne_fixed name
  simp [logrus.Fields.set, h6]

/-- Every emission built by the switch is at info severity, carries the fixed message and,
read through its call shape, the field set of the specification. -/
theorem emit_fields (c : chilogger) (status latency : Int) (r : Request) (requestID : String)
    (e : Emission) (he : e ∈ c.emit status latency r requestID) :
    e.level = .info ∧ e.msg = "request completed" ∧
      e.payload.fields? = some (specFieldSet c.name status latency r requestID) := by
  obtain ⟨lz, ls, ll, name⟩ := c
  rw [specFieldSet_eq]
  cases lz with
  | some z =>
    simp only [chilogger.emit, List.mem_singleton] at he
    subst he
    by_cases hid : requestID = "" <;>
      simp [hid, Payload.fields?, zapFields, Field.logical, zap.Int, zap.Int64, zap.Duration,
        zap.String, Nanoseconds]
  | none =>
    cases ls with
    | some s =>
      simp only [chilogger.emit, List.mem_singleton] at he
      subst he
      by_cases hid : requestID = "" <;>
        simp [hid, Payload.fields?, zapFields, Field.logical, zap.Int, zap.Int64, zap.Duration,
          zap.String, Nanoseconds, GoValue.field?, readAll]
    | none =>
      cases ll with
      | some l =>
        simp only [chilogger.emit, List.mem_singleton] at he
        subst he
        by_cases hid : requestID = "" <;>
          simp [hid, Payload.fields?, literal_six, set_request_id, GoValue.logical?, Nanoseconds,
            readAll]
      | none => simp [chilogger.emit] at he

theorem specFieldSet_lookup (name : String) (status latency : Int) (r : Request)
    (requestID : String) :
    (specFieldSet name status latency r requestID).lookup "status" = some (.int status) ∧
    (specFieldSet name status latency r requestID).lookup "took" = some (.duration latency) ∧
    (specFieldSet name status latency r requestID).lookup (latencyKey name) =
      some (.int latency) ∧
    (specFieldSet name status latency r requestID).lookup "remote" = some (.str r.RemoteAddr) ∧
    (specFieldSet name status latency r requestID).lookup "request" = some (.str r.RequestURI) ∧
    (specFieldSet name status latency r requestID).lookup "method" = some (.str r.Method) ∧
    (specFieldSet name status latency r requestID).lookup "request-id" =
      if requestID = "" then none else some (.str requestID) := by
  obtain ⟨h1, h2, h3, h4, h5, h6⟩ := latencyKey_ne_fixed name
  rw [specFieldSet_eq]
  have b1 : (latencyKey name == "status") = false := by simpa using h1
  have b2 : (latencyKey name == "took") = false := by simpa using h2
  have b3 : ("remote" == latencyKey name) = false := by simpa using Ne.symm h3
  have b4 : ("request" == latencyKey name) = false := by simpa using Ne.symm h4
  have b5 : ("method" == latencyKey name) = false := by simpa using Ne.symm h5
  have b6 : ("request-id" == latencyKey name) = false := by simpa using Ne.symm h6
  by_cases hid : requestID = "" <;> simp [List.lookup, hid, b1, b2, b3, b4, b5, b6]

theorem specFieldSet_keys (name : String) (status latency : Int) (r : Request)
    (requestID : String) :
    (specFieldSet name status latency r requestID).map Prod.fst =
      ["status", "took", latencyKey name, "remote", "request", "method"] ++
        (if requestID = "" then [] else ["request-id"]) := by
  rw [specFieldSet_eq]
  by_cases hid : requestID = "" <;> simp [hid]

theorem lookupRequestID_nil (r : Request) (h : r.ctx.Value .RequestIDKey = .nil) :
    lookupRequestID r = .ok "" := by
  simp [lookupRequestID, h]

theorem lookupRequestID_string (r : Request) (s : String)
    (h : r.ctx.Value .RequestIDKey = .string s) : lookupRequestID r = .ok s := by
  simp [lookupRequestID, h]

theorem lookupRequestID_ok (r : Request) (id : String) (h : lookupRequestID r = .ok id) :
    (r.ctx.Value .RequestIDKey = .nil ∧ id = "") ∨ r.ctx.Value .RequestIDKey = .string id := by
  unfold lookupRequestID at h
  split at h
  · rename_i hv
    left
    exact ⟨hv, by injection h with h; exact h.symm⟩
  · rename_i s hv
    right
    injection h with h
    rw [hv, h]
  · cases h

theorem middleware_error (W : WrapResponseWriter) (c : chilogger) (next : Handler)
    (clock : Clock) (r : Request) (v : PanicValue) (h : lookupRequestID r = .error v) :
    c.middleware W next clock r = ⟨[], .panicked v⟩ := by
  simp [chilogger.middleware, h]

theorem middleware_panicked (W : WrapResponseWriter) (c : chilogger) (next : Handler)
    (clock : Clock) (r : Request) (id : String) (v : PanicValue)
    (h : lookupRequestID r = .ok id) (hn : (next r).outcome = .panicked v) :
    c.middleware W next clock r = ⟨[.serveHTTP r (.panicked v)], .panicked v⟩ := by
  simp [chilogger.middleware, h, hn]

theorem middleware_returned (W : WrapResponseWriter) (c : chilogger) (next : Handler)
    (clock : Clock) (r : Request) (id : String)
    (h : lookupRequestID r = .ok id) (hn : (next r).outcome = .returned) :
    c.middleware W next clock r =
      ⟨.serveHTTP r .returned ::
          (c.emit (W.Status (observed W next r)) (timeSince clock) (next r).request id).map
            Event.log,
        .returned⟩ := by
  simp [chilogger.middleware, h, hn, observed]

/-- The three ways a call of the wrapped handler can go. -/
theorem middleware_cases (W : WrapResponseWriter) (c : chilogger) (next : Handler)
    (clock : Clock) (r : Request) :
    (∃ v, lookupRequestID r = .error v ∧ c.middleware W next clock r = ⟨[], .panicked v⟩) ∨
    (∃ id v, lookupRequestID r = .ok id ∧ (next r).outcome = .panicked v ∧
      c.middleware W next clock r = ⟨[.serveHTTP r (.panicked v)], .panicked v⟩) ∨
    (∃ id, lookupRequestID r = .ok id ∧ (next r).outcome = .returned ∧
      c.middleware W next clock r =
        ⟨.serveHTTP r .returned ::
            (c.emit (W.Status (observed W next r)) (timeSince clock) (next r).request id).map
              Event.log,
          .returned⟩) := by
  cases hl : lookupRequestID r with
  | error v => exact Or.inl ⟨v, rfl, middleware_error W c next clock r v hl⟩
  | ok id =>
    cases hn : (next r).outcome with
    | panicked v => exact Or.inr (Or.inl ⟨id, v, rfl, rfl, middleware_panicked W c next clock r id v hl hn⟩)
    | returned => exact Or.inr (Or.inr ⟨id, rfl, rfl, middleware_returned W c next clock r id hl hn⟩)

/-- An emission in the trace comes from the switch, run after a successful lookup and a
normal return of the downstream handler. -/
theorem log_mem_trace (W : WrapResponseWriter) (c : chilogger) (next : Handler)
    (clock : Clock) (r : Request) (e : Emission)
    (he : Event.log e ∈ (c.middleware W next clock r).trace) :
    ∃ id, lookupRequestID r = .ok id ∧ (next r).outcome = .returned ∧
      (c.middleware W next clock r).outcome = .returned ∧
      e ∈ c.emit (W.Status (observed W next r)) (timeSince clock) (next r).request id := by
  rcases middleware_cases W c next clock r with ⟨v, _, hx⟩ | ⟨id, v, _, _, hx⟩ | ⟨id, hl, hn, hx⟩
  · rw [hx] at he
    simp at he
  · rw [hx] at he
    simp at he
  · rw [hx] at he ⊢
    refine ⟨id, hl, hn, rfl, ?_⟩
    simpa using he

theorem emissions_cons_serve (r : Request) (o : Outcome) (es : List Emission) (out : Outcome) :
    (Exec.mk (.serveHTTP r o :: es.map Event.log) out).emissions = es := by
  induction es with
  | nil => simp [Exec.emissions]
  | cons e es ih =>
    simp only [Exec.emissions, List.map_cons, List.filterMap_cons] at ih ⊢
    simp [ih]

theorem request_id_key_mem (name : String) (status latency : Int) (r : Request)
    (requestID : String) :
    "request-id" ∈ (specFieldSet name status latency r requestID).map Prod.fst ↔
      requestID ≠ "" := by
  obtain ⟨-, -, -, -, -, h6⟩ := latencyKey_ne_fixed name
  rw [specFieldSet_keys]
  by_cases hid : requestID = "" <;> simp [hid, Ne.symm h6]

theorem chi_call_written (b : basicWriter) (call : WriterCall) (h : b.wroteHeader = true) :
    (chiWriter.call b call).wroteHeader = true ∧ (chiWriter.call b call).code = b.code := by
  cases call with
  | WriteHeader code => simp [WrapResponseWriter.call, chiWriter, basicWriter.WriteHeader, h]
  | Write n =>
    simp [WrapResponseWriter.call, chiWriter, basicWriter.Write, basicWriter.maybeWriteHeader, h]
  | Flush => simp [WrapResponseWriter.call, chiWriter, basicWriter.Flush]
  | ReadFrom n =>
    by_cases ht : b.tee = true <;> by_cases hz : n = 0 <;>
      simp [WrapResponseWriter.call, chiWriter, basicWriter.ReadFrom, basicWriter.Write,
        basicWriter.maybeWriteHeader, h, ht, hz]
  | Tee set => simp [WrapResponseWriter.call, chiWriter, basicWriter.Tee, h]

theorem chi_code_stable (calls : List WriterCall) (b : basicWriter) (h : b.wroteHeader = true) :
    (calls.foldl chiWriter.call b).code = b.code := by
  induction calls generalizing b with
  | nil => rfl
  | cons call rest ih =>
    obtain ⟨hw, hc⟩ := chi_call_written b call h
    rw [List.foldl_cons, ih _ hw, hc]

theorem chi_status_from (calls : List WriterCall) (b : basicWriter)
    (hw : b.wroteHeader = false) (hc : b.code = 0) :
    (calls.foldl chiWriter.call b).code = recordedStatusFrom b.tee calls := by
  induction calls generalizing b with
  | nil => simpa [recordedStatusFrom] using hc
  | cons call rest ih =>
    rw [List.foldl_cons]
    cases call with
    | WriteHeader code =>
      rw [chi_code_stable rest _
        (by simp [WrapResponseWriter.call, chiWriter, basicWriter.WriteHeader, hw])]
      simp [WrapResponseWriter.call, chiWriter, basicWriter.WriteHeader, hw, recordedStatusFrom]
    | Write n =>
      rw [chi_code_stable rest _
        (by simp [WrapResponseWriter.call, chiWriter, basicWriter.Write,
          basicWriter.maybeWriteHeader, basicWriter.WriteHeader, hw])]
      simp [WrapResponseWriter.call, chiWriter, basicWriter.Write, basicWriter.maybeWriteHeader,
        basicWriter.WriteHeader, hw, recordedStatusFrom]
    | Flush =>
      rw [chi_code_stable rest _ (by simp [WrapResponseWriter.call, chiWriter, basicWriter.Flush])]
      simp [WrapResponseWriter.call, chiWriter, basicWriter.Flush, hc, recordedStatusFrom]
    | ReadFrom n =>
      by_cases ht : b.tee = true
      · by_cases hz : n = 0
        · have hb : chiWriter.call b (.ReadFrom n) = b := by
            cases b
            simp_all [WrapResponseWriter.call, chiWriter, basicWriter.ReadFrom]
          rw [hb, ih b hw hc]
          simp [recordedStatusFrom, ht, hz]
        · rw [chi_code_stable rest _
            (by simp [WrapResponseWriter.call, chiWriter, basicWriter.ReadFrom, basicWriter.Write,
              basicWriter.maybeWriteHeader, basicWriter.WriteHeader, hw, ht, hz])]
          simp [WrapResponseWriter.call, chiWriter, basicWriter.ReadFrom, basicWriter.Write,
            basicWriter.maybeWriteHeader, basicWriter.WriteHeader, hw, ht, hz, recordedStatusFrom]
      · rw [chi_code_stable rest _
          (by simp [WrapResponseWriter.call, chiWriter, basicWriter.ReadFrom,
            basicWriter.maybeWriteHeader, basicWriter.WriteHeader, hw, ht])]
        simp [WrapResponseWriter.call, chiWriter, basicWriter.ReadFrom,
          basicWriter.maybeWriteHeader, basicWriter.WriteHeader, hw, ht, recordedStatusFrom]
    | Tee set =>
      rw [ih (chiWriter.call b (.Tee set))
        (by simp [WrapResponseWriter.call, chiWriter, basicWriter.Tee, hw])
        (by simp [WrapResponseWriter.call, chiWriter, basicWriter.Tee, hc])]
      simp [WrapResponseWriter.call, chiWriter, basicWriter.Tee, recordedStatusFrom]

/-- The status read from go-chi's wrapper after the downstream calls is the one described by
`recordedStatus`. -/
theorem chi_status (next : Handler) (r : Request) :
    chiWriter.Status (observed chiWriter next r) = recordedStatus (next r).calls :=
  chi_status_from (next r).calls (chiWriter.NewWrapResponseWriter r.ProtoMajor) rfl rfl

theorem timeSub_nonneg (t u : Int) (h : u ≤ t) : 0 ≤ timeSub t u := by
  unfold timeSub
  simp only
  split
  · simp [maxDuration]
  · rename_i h1
    split
    · rename_i h2
      omega
    · rename_i h2
      by_contra hneg
      push_neg at hneg
      have hlt : u < t := by
        rcases eq_or_lt_of_le h with heq | hlt
        · subst heq
          simp [wrap64] at hneg
        · exact hlt
      exact h1 ⟨hneg, hlt⟩

theorem timeSub_eq_sub (t u : Int) (h : minDuration ≤ t - u ∧ t - u ≤ maxDuration) :
    timeSub t u = t - u := by
  obtain ⟨hlo, hhi⟩ := h
  simp only [minDuration, maxDuration] at hlo hhi
  have hw : wrap64 (t - u) = t - u := by
    unfold wrap64
    rw [Int.emod_eq_of_lt (by omega) (by omega)]
    omega
  unfold timeSub
  simp only [hw]
  split
  · omega
  · split
    · omega
    · rfl

/-- The downstream handler has been run and has returned exactly when the lookup succeeded
and the handler returns on this request. -/
theorem served_returned_iff (W : WrapResponseWriter) (c : chilogger) (next : Handler)
    (clock : Clock) (r : Request) :
    Event.serveHTTP r .returned ∈ (c.middleware W next clock r).trace ↔
      (∃ id, lookupRequestID r = .ok id) ∧ (next r).outcome = .returned := by
  rcases middleware_cases W c next clock r with ⟨v, hl, hx⟩ | ⟨id, v, hl, hn, hx⟩ | ⟨id, hl, hn, hx⟩
  · rw [hx]
    simp [hl]
  · rw [hx]
    simp [hn]
  · rw [hx]
    simp [hl, hn]

theorem emit_singleton (c : chilogger) (status latency : Int) (r : Request)
    (requestID : String) (hb : c.SinkBound) :
    ∃ e, c.emit status latency r requestID = [e] := by
  obtain ⟨lz, ls, ll, nm⟩ := c
  cases lz with
  | some _ => exact ⟨_, rfl⟩
  | none =>
    cases ls with
    | some _ => exact ⟨_, rfl⟩
    | none =>
      cases ll with
      | some _ => exact ⟨_, rfl⟩
      | none => simp [chilogger.SinkBound] at hb

/-- A call that returns normally with a sink bound: the lookup succeeded, the downstream
handler returned, and the trace is the downstream call followed by one emission, at info
severity, with the fixed message and the field set of the specification. -/
theorem completed_emission (W : WrapResponseWriter) (c : chilogger) (next : Handler)
    (clock : Clock) (r : Request)
    (hret : (c.middleware W next clock r).outcome = .returned) (hb : c.SinkBound) :
    ∃ id e, lookupRequestID r = .ok id ∧ (next r).outcome = .returned ∧
      (c.middleware W next clock r).trace = [.serveHTTP r .returned, .log e] ∧
      (c.middleware W next clock r).emissions = [e] ∧
      e.level = .info ∧ e.msg = "request completed" ∧
      e.payload.fields? =
        some (specFieldSet c.name (W.Status (observed W next r)) (timeSince clock)
          (next r).request id) := by
  rcases middleware_cases W c next clock r with ⟨v, _, hx⟩ | ⟨id, v, _, _, hx⟩ | ⟨id, hl, hn, hx⟩
  · rw [hx] at hret
    cases hret
  · rw [hx] at hret
    cases hret
  · obtain ⟨e, he⟩ := emit_singleton c (W.Status (observed W next r)) (timeSince clock)
      (next r).request id hb
    obtain ⟨h1, h2, h3⟩ := emit_fields c _ _ (next r).request id e
      (by rw [he]; exact List.mem_singleton.mpr rfl)
    refine ⟨id, e, hl, hn, ?_, ?_, h1, h2, h3⟩
    · rw [hx, he]
      rfl
    · rw [hx, emissions_cons_serve, he]

/-! ## The claims -/

/-- C1: for each of the three constructors called with a non-nil logger, when the downstream
handler has been run and has returned normally, the trace of the call is that downstream call
followed by exactly one emission, made to the bound logger, at info severity, with the message
"request completed". -/
theorem C1_one_info_emission_after_return (W : WrapResponseWriter) (name : String) (lg : Nat)
    (next : Handler) (clock : Clock) (r : Request)
    (mw : Handler → Clock → Request → Exec) (sink : LoggerRef)
    (hmw : (mw, sink) ∈
      [(NewZapMiddleware W name (some lg), LoggerRef.zap lg),
        (NewZapSugaredMiddleware W name (some lg), LoggerRef.sugared lg),
        (NewLogrusMiddleware W name (some lg), LoggerRef.logrus lg)])
    (hret : Event.serveHTTP r .returned ∈ (mw next clock r).trace) :
    ∃ e, (mw next clock r).trace = [.serveHTTP r .returned, .log e] ∧
      (mw next clock r).emissions = [e] ∧
      e.logger = sink ∧ e.level = .info ∧ e.msg = "request completed" := by
  have key : ∀ c : chilogger,
      Event.serveHTTP r .returned ∈ (c.middleware W next clock r).trace →
      ∃ id, c.middleware W next clock r =
        ⟨.serveHTTP r .returned ::
          (c.emit (W.Status (observed W next r)) (timeSince clock) (next r).request id).map
            Event.log,
          .returned⟩ := by
    intro c hc
    rcases middleware_cases W c next clock r with ⟨v, _, hx⟩ | ⟨id, v, _, _, hx⟩ | ⟨id, _, _, hx⟩
    · rw [hx] at hc
      simp at hc
    · rw [hx] at hc
      simp at hc
    · exact ⟨id, hx⟩
  simp only [List.mem_cons, Prod.mk.injEq, List.mem_singleton, List.not_mem_nil, or_false] at hmw
  rcases hmw with ⟨rfl, rfl⟩ | ⟨rfl, rfl⟩ | ⟨rfl, rfl⟩
  · obtain ⟨id, hx⟩ := key _ hret
    simp only [NewZapMiddleware] at hx ⊢
    rw [hx]
    simp [chilogger.emit, Exec.emissions]
  · obtain ⟨id, hx⟩ := key _ hret
    simp only [NewZapSugaredMiddleware] at hx ⊢
    rw [hx]
    simp [chilogger.emit, Exec.emissions]
  · obtain ⟨id, hx⟩ := key _ hret
    simp only [NewLogrusMiddleware] at hx ⊢
    rw [hx]
    simp [chilogger.emit, Exec.emissions]

/-- Witness of C1 on the scenario request, served through the logrus constructor. -/
theorem C1_one_info_emission_after_return_witness :
    Event.serveHTTP scenarioRequest .returned ∈
      (NewLogrusMiddleware chiWriter "svcA" (some 7) createdHandler scenarioClock
        scenarioRequest).trace ∧
    ∃ e, (NewLogrusMiddleware chiWriter "svcA" (some 7) createdHandler scenarioClock
        scenarioRequest).trace = [.serveHTTP scenarioRequest .returned, .log e] ∧
      (NewLogrusMiddleware chiWriter "svcA" (some 7) createdHandler scenarioClock
        scenarioRequest).emissions = [e] ∧
      e.logger = LoggerRef.logrus 7 ∧ e.level = .info ∧ e.msg = "request completed" :=
  ⟨by decide,
    C1_one_info_emission_after_return chiWriter "svcA" 7 createdHandler scenarioClock
      scenarioRequest (NewLogrusMiddleware chiWriter "svcA" (some 7)) (LoggerRef.logrus 7)
      (List.mem_cons_of_mem _ (List.mem_cons_of_mem _ (List.mem_cons_self _ _)))
      (by decide)⟩

/-- C2 (as the code has it): a call that returns normally with a sink bound makes one
emission, whose status field equals what the status observer reports once the downstream
handler has returned; with go-chi's wrapper that is decided by the handler's first call that
commits the header: the code of WriteHeader, 200 for a body write (Write, or ReadFrom unless
a tee writer is set and nothing is read), 0 for Flush; and it is 0 as well when the handler
writes neither a header nor a body. -/
theorem C2_status_is_observed_status (c : chilogger) (next : Handler) (clock : Clock)
    (r : Request)
    (hret : (c.middleware chiWriter next clock r).outcome = .returned) (hb : c.SinkBound) :
    ∃ e fs, (c.middleware chiWriter next clock r).emissions = [e] ∧
      e.payload.fields? = some fs ∧
      fs.lookup "status" = some (.int (chiWriter.Status (observed chiWriter next r))) ∧
      chiWriter.Status (observed chiWriter next r) = recordedStatus (next r).calls := by
  obtain ⟨id, e, _, _, _, hem, _, _, hf⟩ := completed_emission chiWriter c next clock r hret hb
  exact ⟨e, _, hem, hf, (specFieldSet_lookup c.name _ _ (next r).request id).1,
    chi_status next r⟩

/-- Witness of C2: the handler that sets 201, logged through zap. -/
theorem C2_status_is_observed_status_witness :
    ((chilogger.middleware chiWriter ⟨some 1, none, none, "svcA"⟩ createdHandler scenarioClock
        scenarioRequest).outcome = .returned ∧
      chilogger.SinkBound ⟨some 1, none, none, "svcA"⟩) ∧
    ∃ e fs, (chilogger.middleware chiWriter ⟨some 1, none, none, "svcA"⟩ createdHandler
        scenarioClock scenarioRequest).emissions = [e] ∧
      e.payload.fields? = some fs ∧
      fs.lookup "status" = some (.int (chiWriter.Status (observed chiWriter createdHandler
        scenarioRequest))) ∧
      chiWriter.Status (observed chiWriter createdHandler scenarioRequest) =
        recordedStatus (createdHandler scenarioRequest).calls :=
  ⟨⟨by decide, Or.inl (by decide)⟩,
    C2_status_is_observed_status ⟨some 1, none, none, "svcA"⟩ createdHandler scenarioClock
      scenarioRequest (by decide) (Or.inl (by decide))⟩

/-- Counterexample to C2 as stated: a handler that returns without writing a header or a body
is logged with status 0, not 200; so is a handler that flushes before it writes the body. -/
theorem C2_counterexample_silent_handler :
    (NewZapMiddleware chiWriter "svcA" (some 1) silentHandler scenarioClock
        scenarioRequest).outcome = .returned ∧
    (NewZapMiddleware chiWriter "svcA" (some 1) silentHandler scenarioClock
        scenarioRequest).emissions.map (fun e => e.payload.fields?.bind (List.lookup "status")) =
      [some (.int 0)] ∧
    (NewZapMiddleware chiWriter "svcA" (some 1) silentHandler scenarioClock
        scenarioRequest).emissions.map (fun e => e.payload.fields?.bind (List.lookup "status")) ≠
      [some (.int 200)] ∧
    (NewZapMiddleware chiWriter "svcA" (some 1) flushingHandler scenarioClock
        scenarioRequest).emissions.map (fun e => e.payload.fields?.bind (List.lookup "status")) =
      [some (.int 0)] := by
  decide

/-- C3 (as the code has it): when the context value under the request-id key is absent or
is a string, the lookup succeeds and requestID is that string (the empty string when the
value is absent), the downstream handler is invoked with the request, the call ends the way
the downstream handler ended, and when the value is absent or the empty string no emission
carries a request-id field. -/
theorem C3_lookup_on_absent_or_string (W : WrapResponseWriter) (c : chilogger)
    (next : Handler) (clock : Clock) (r : Request)
    (h : r.ctx.Value .RequestIDKey = .nil ∨ ∃ s, r.ctx.Value .RequestIDKey = .string s) :
    (r.ctx.Value .RequestIDKey = .nil → lookupRequestID r = .ok "") ∧
    (∀ s, r.ctx.Value .RequestIDKey = .string s → lookupRequestID r = .ok s) ∧
    (c.middleware W next clock r).trace.head? = some (.serveHTTP r (next r).outcome) ∧
    (c.middleware W next clock r).outcome = (next r).outcome ∧
    (r.ctx.Value .RequestIDKey = .nil ∨ r.ctx.Value .RequestIDKey = .string "" →
      ∀ e, Event.log e ∈ (c.middleware W next clock r).trace →
        ∃ fs, e.payload.fields? = some fs ∧ "request-id" ∉ fs.map Prod.fst ∧
          fs.lookup "request-id" = none) := by
  have hok : ∃ id, lookupRequestID r = .ok id := by
    rcases h with h | ⟨s, h⟩
    · exact ⟨"", lookupRequestID_nil r h⟩
    · exact ⟨s, lookupRequestID_string r s h⟩
  obtain ⟨id, hid⟩ := hok
  refine ⟨lookupRequestID_nil r, lookupRequestID_string r, ?_, ?_, ?_⟩
  · cases hn : (next r).outcome with
    | panicked v => rw [middleware_panicked W c next clock r id v hid hn]; rfl
    | returned => rw [middleware_returned W c next clock r id hid hn]; rfl
  · cases hn : (next r).outcome with
    | panicked v => rw [middleware_panicked W c next clock r id v hid hn]
    | returned => rw [middleware_returned W c next clock r id hid hn]
  · intro habs e he
    obtain ⟨id2, hid2, _, _, hmem⟩ := log_mem_trace W c next clock r e he
    have hempty : lookupRequestID r = .ok "" := by
      rcases habs with h0 | h0
      · exact lookupRequestID_nil r h0
      · exact lookupRequestID_string r "" h0
    have hidnil : id2 = "" := by
      rw [hempty] at hid2
      injection hid2 with h2
      exact h2.symm
    subst hidnil
    obtain ⟨_, _, hf⟩ := emit_fields c _ _ (next r).request "" e hmem
    refine ⟨_, hf, ?_, ?_⟩
    · rw [request_id_key_mem]
      simp
    · have hl := (specFieldSet_lookup c.name (W.Status (observed W next r)) (timeSince clock)
        (next r).request "").2.2.2.2.2.2
      simpa using hl

/-- Witness of C3: the scenario request, whose context carries the string abc-123. -/
theorem C3_lookup_on_absent_or_string_witness :
    (scenarioRequest.ctx.Value .RequestIDKey = .nil ∨
      ∃ s, scenarioRequest.ctx.Value .RequestIDKey = .string s) ∧
    (scenarioRequest.ctx.Value .RequestIDKey = .nil → lookupRequestID scenarioRequest = .ok "") ∧
    (∀ s, scenarioRequest.ctx.Value .RequestIDKey = .string s →
      lookupRequestID scenarioRequest = .ok s) ∧
    (chilogger.middleware chiWriter ⟨none, some 2, none, "svcA"⟩ createdHandler scenarioClock
      scenarioRequest).trace.head? =
        some (.serveHTTP scenarioRequest (createdHandler scenarioRequest).outcome) ∧
    (chilogger.middleware chiWriter ⟨none, some 2, none, "svcA"⟩ createdHandler scenarioClock
      scenarioRequest).outcome = (createdHandler scenarioRequest).outcome ∧
    (scenarioRequest.ctx.Value .RequestIDKey = .nil ∨
        scenarioRequest.ctx.Value .RequestIDKey = .string "" →
      ∀ e, Event.log e ∈ (chilogger.middleware chiWriter ⟨none, some 2, none, "svcA"⟩
          createdHandler scenarioClock scenarioRequest).trace →
        ∃ fs, e.payload.fields? = some fs ∧ "request-id" ∉ fs.map Prod.fst ∧
          fs.lookup "request-id" = none) :=
  ⟨Or.inr ⟨"abc-123", by decide⟩,
    C3_lookup_on_absent_or_string chiWriter ⟨none, some 2, none, "svcA"⟩ createdHandler
      scenarioClock scenarioRequest (Or.inr ⟨"abc-123", by decide⟩)⟩

/-- Counterexample to C3 as stated: with an integer stored under the request-id key the
lookup does not yield the empty string; the call panics with the failed type assertion, the
downstream handler is not invoked and nothing is emitted. -/
theorem C3_counterexample_non_string_id :
    intIDRequest.ctx.Value .RequestIDKey = .int 42 ∧
    lookupRequestID intIDRequest = .error (.typeAssertion (.int 42)) ∧
    NewZapMiddleware chiWriter "svcA" (some 1) createdHandler scenarioClock intIDRequest =
      ⟨[], .panicked (.typeAssertion (.int 42))⟩ :=
  ⟨by decide, rfl, by decide⟩

/-- C4: a call that returns normally with a sink bound, whichever of the three, makes one
emission, which contains a request-id field if and only if the request context carries a
non-empty string under the request-id key; the field then holds exactly that string. -/
theorem C4_request_id_field_iff (W : WrapResponseWriter) (c : chilogger) (next : Handler)
    (clock : Clock) (r : Request)
    (hret : (c.middleware W next clock r).outcome = .returned) (hb : c.SinkBound) :
    ∃ e fs, (c.middleware W next clock r).emissions = [e] ∧
      e.payload.fields? = some fs ∧
      ("request-id" ∈ fs.map Prod.fst ↔
        ∃ s, r.ctx.Value .RequestIDKey = .string s ∧ s ≠ "") ∧
      (∀ s, r.ctx.Value .RequestIDKey = .string s → s ≠ "" →
        fs.lookup "request-id" = some (.str s)) ∧
      ((¬ ∃ s, r.ctx.Value .RequestIDKey = .string s ∧ s ≠ "") →
        fs.lookup "request-id" = none) := by
  obtain ⟨id, e, hid, _, _, hem, _, _, hf⟩ := completed_emission W c next clock r hret hb
  have hl := (specFieldSet_lookup c.name (W.Status (observed W next r)) (timeSince clock)
    (next r).request id).2.2.2.2.2.2
  have hiff : id ≠ "" ↔ ∃ s, r.ctx.Value .RequestIDKey = .string s ∧ s ≠ "" := by
    constructor
    · intro hne
      rcases lookupRequestID_ok r id hid with ⟨_, h0⟩ | hs
      · exact absurd h0 hne
      · exact ⟨id, hs, hne⟩
    · rintro ⟨s, hs, hne⟩
      rw [lookupRequestID_string r s hs] at hid
      injection hid with h2
      rw [← h2]
      exact hne
  refine ⟨e, _, hem, hf, ?_, ?_, ?_⟩
  · rw [request_id_key_mem]
    exact hiff
  · intro s hs hne
    rw [lookupRequestID_string r s hs] at hid
    injection hid with h2
    subst h2
    rw [hl]
    simp [hne]
  · intro hno
    have : id = "" := by
      by_contra hne
      exact hno (hiff.mp hne)
    rw [hl]
    simp [this]

/-- Witness of C4: the scenario request logged through logrus. -/
theorem C4_request_id_field_iff_witness :
    ((chilogger.middleware chiWriter ⟨none, none, some 3, "svcA"⟩ createdHandler scenarioClock
        scenarioRequest).outcome = .returned ∧
      chilogger.SinkBound ⟨none, none, some 3, "svcA"⟩) ∧
    ∃ e fs, (chilogger.middleware chiWriter ⟨none, none, some 3, "svcA"⟩ createdHandler
        scenarioClock scenarioRequest).emissions = [e] ∧
      e.payload.fields? = some fs ∧
      ("request-id" ∈ fs.map Prod.fst ↔
        ∃ s, scenarioRequest.ctx.Value .RequestIDKey = .string s ∧ s ≠ "") ∧
      (∀ s, scenarioRequest.ctx.Value .RequestIDKey = .string s → s ≠ "" →
        fs.lookup "request-id" = some (.str s)) ∧
      ((¬ ∃ s, scenarioRequest.ctx.Value .RequestIDKey = .string s ∧ s ≠ "") →
        fs.lookup "request-id" = none) :=
  ⟨⟨by decide, Or.inr (Or.inr (by decide))⟩,
    C4_request_id_field_iff chiWriter ⟨none, none, some 3, "svcA"⟩ createdHandler scenarioClock
      scenarioRequest (by decide) (Or.inr (Or.inr (by decide)))⟩

/-- C5: when the downstream handler has been run and has panicked with a value, the call of
the wrapped handler ends in a panic with the same value and makes no emission, whichever
loggers are bound. -/
theorem C5_panic_propagates_unlogged (W : WrapResponseWriter) (c : chilogger) (next : Handler)
    (clock : Clock) (r : Request) (v : PanicValue)
    (hp : Event.serveHTTP r (.panicked v) ∈ (c.middleware W next clock r).trace) :
    (c.middleware W next clock r).outcome = .panicked v ∧
    (c.middleware W next clock r).emissions = [] ∧
    (c.middleware W next clock r).trace = [.serveHTTP r (.panicked v)] := by
  rcases middleware_cases W c next clock r with ⟨w, _, hx⟩ | ⟨id, w, _, _, hx⟩ | ⟨id, _, _, hx⟩
  · rw [hx] at hp
    simp at hp
  · rw [hx] at hp ⊢
    simp only [List.mem_singleton, Event.serveHTTP.injEq, Outcome.panicked.injEq, true_and] at hp
    subst hp
    exact ⟨rfl, rfl, rfl⟩
  · rw [hx] at hp
    simp at hp

/-- Witness of C5: the panicking handler behind the sugared zap logger. -/
theorem C5_panic_propagates_unlogged_witness :
    Event.serveHTTP scenarioRequest (.panicked (.value (.string "boom"))) ∈
      (chilogger.middleware chiWriter ⟨none, some 2, none, "svcA"⟩ panickingHandler
        scenarioClock scenarioRequest).trace ∧
    (chilogger.middleware chiWriter ⟨none, some 2, none, "svcA"⟩ panickingHandler scenarioClock
      scenarioRequest).outcome = .panicked (.value (.string "boom")) ∧
    (chilogger.middleware chiWriter ⟨none, some 2, none, "svcA"⟩ panickingHandler scenarioClock
      scenarioRequest).emissions = [] ∧
    (chilogger.middleware chiWriter ⟨none, some 2, none, "svcA"⟩ panickingHandler scenarioClock
      scenarioRequest).trace = [.serveHTTP scenarioRequest (.panicked (.value (.string "boom")))] :=
  ⟨by decide,
    C5_panic_propagates_unlogged chiWriter ⟨none, some 2, none, "svcA"⟩ panickingHandler
      scenarioClock scenarioRequest (.value (.string "boom")) (by decide)⟩

/-- C6 (as the code has it): with every logger pointer nil, no request of any sequence
produces an emission; and for each request whose request-id context value is absent or a
string, the downstream handler is invoked exactly once, with the original request, and the
call ends the way the downstream handler ended, with no error of the middleware's own. -/
theorem C6_unbound_sink_is_silent (W : WrapResponseWriter) (name : String) (next : Handler)
    (reqs : List (Clock × Request)) (mw : Handler → Clock → Request → Exec)
    (hmw : mw ∈ [NewLogrusMiddleware W name none, NewZapMiddleware W name none,
      NewZapSugaredMiddleware W name none]) :
    (∀ x ∈ serveAll (mw next) reqs, x.emissions = []) ∧
    ∀ p ∈ reqs,
      (p.2.ctx.Value .RequestIDKey = .nil ∨ ∃ s, p.2.ctx.Value .RequestIDKey = .string s) →
      (mw next p.1 p.2).trace = [.serveHTTP p.2 (next p.2).outcome] ∧
      (mw next p.1 p.2).outcome = (next p.2).outcome := by
  have hc : mw = chilogger.middleware W ⟨none, none, none, name⟩ := by
    simp only [List.mem_cons, List.mem_singleton, List.not_mem_nil, or_false] at hmw
    rcases hmw with rfl | rfl | rfl <;> rfl
  subst hc
  constructor
  · intro x hx
    simp only [serveAll, List.mem_map] at hx
    obtain ⟨p, _, rfl⟩ := hx
    rcases middleware_cases W ⟨none, none, none, name⟩ next p.1 p.2 with
      ⟨v, _, hx⟩ | ⟨id, v, _, _, hx⟩ | ⟨id, _, _, hx⟩
    · rw [hx]; rfl
    · rw [hx]; rfl
    · rw [hx]; rfl
  · intro p _ hwf
    have hok : ∃ id, lookupRequestID p.2 = .ok id := by
      rcases hwf with h | ⟨s, h⟩
      · exact ⟨"", lookupRequestID_nil p.2 h⟩
      · exact ⟨s, lookupRequestID_string p.2 s h⟩
    obtain ⟨id, hid⟩ := hok
    cases hn : (next p.2).outcome with
    | panicked v =>
      rw [middleware_panicked W _ next p.1 p.2 id v hid hn]
      exact ⟨rfl, rfl⟩
    | returned =>
      rw [middleware_returned W _ next p.1 p.2 id hid hn]
      exact ⟨rfl, rfl⟩

/-- Witness of C6: two requests served by the zap constructor called with a nil logger. -/
theorem C6_unbound_sink_is_silent_witness :
    (∀ x ∈ serveAll (NewZapMiddleware chiWriter "svcA" none createdHandler)
        [(scenarioClock, scenarioRequest), (scenarioClock, scenarioRequestNoID)],
      x.emissions = []) ∧
    ∀ p ∈ [(scenarioClock, scenarioRequest), (scenarioClock, scenarioRequestNoID)],
      (p.2.ctx.Value .RequestIDKey = .nil ∨ ∃ s, p.2.ctx.Value .RequestIDKey = .string s) →
      (NewZapMiddleware chiWriter "svcA" none createdHandler p.1 p.2).trace =
        [.serveHTTP p.2 (createdHandler p.2).outcome] ∧
      (NewZapMiddleware chiWriter "svcA" none createdHandler p.1 p.2).outcome =
        (createdHandler p.2).outcome :=
  C6_unbound_sink_is_silent chiWriter "svcA" createdHandler
    [(scenarioClock, scenarioRequest), (scenarioClock, scenarioRequestNoID)]
    (NewZapMiddleware chiWriter "svcA" none)
    (List.mem_cons_of_mem _ (List.mem_cons_self _ _))

/-- Counterexample to C6 as stated: with no logger bound and an integer stored under the
request-id key, the call panics on its own and the downstream handler, which would have
returned normally, is not invoked. -/
theorem C6_counterexample_non_string_id :
    (createdHandler intIDRequest).outcome = .returned ∧
    NewLogrusMiddleware chiWriter "svcA" none createdHandler scenarioClock intIDRequest =
      ⟨[], .panicked (.typeAssertion (.int 42))⟩ ∧
    Event.serveHTTP intIDRequest .returned ∉
      (NewLogrusMiddleware chiWriter "svcA" none createdHandler scenarioClock
        intIDRequest).trace := by
  decide

/-- C7: for every component name, status, elapsed duration, request and request id, the
three branches of the switch each make one emission, and the three emissions have the same
severity, the same message and logically equivalent field lists (the same keys, the same
content under each key); hence the three constructors, given the same name, yield
executions whose emissions correspond one to one with the same content. -/
theorem C7_variants_equivalent (W : WrapResponseWriter) (name : String) (z s l : Nat)
    (status latency : Int) (requestID : String) (next : Handler) (clock : Clock)
    (r : Request) :
    (∃ ez es el,
      chilogger.emit ⟨some z, none, none, name⟩ status latency r requestID = [ez] ∧
      chilogger.emit ⟨none, some s, none, name⟩ status latency r requestID = [es] ∧
      chilogger.emit ⟨none, none, some l, name⟩ status latency r requestID = [el] ∧
      ez.SameContent es ∧ ez.SameContent el ∧ es.SameContent el) ∧
    List.Forall₂ Emission.SameContent
      (NewZapMiddleware W name (some z) next clock r).emissions
      (NewZapSugaredMiddleware W name (some s) next clock r).emissions ∧
    List.Forall₂ Emission.SameContent
      (NewZapMiddleware W name (some z) next clock r).emissions
      (NewLogrusMiddleware W name (some l) next clock r).emissions := by
  have same : ∀ (c1 c2 : chilogger) (st la : Int) (rq : Request) (id : String)
      (e1 e2 : Emission),
      c1.name = c2.name → e1 ∈ c1.emit st la rq id → e2 ∈ c2.emit st la rq id →
      e1.SameContent e2 := by
    intro c1 c2 st la rq id e1 e2 hname h1 h2
    obtain ⟨hl1, hm1, hf1⟩ := emit_fields c1 st la rq id e1 h1
    obtain ⟨hl2, hm2, hf2⟩ := emit_fields c2 st la rq id e2 h2
    refine ⟨by rw [hl1, hl2], by rw [hm1, hm2], _, _, hf1, hf2, ?_⟩
    rw [hname]
    exact ⟨fun _ => Iff.rfl, fun _ => rfl⟩
  have pair : ∀ (c1 c2 : chilogger) (st la : Int) (rq : Request) (id : String),
      c1.name = c2.name → c1.SinkBound → c2.SinkBound →
      List.Forall₂ Emission.SameContent (c1.emit st la rq id) (c2.emit st la rq id) := by
    intro c1 c2 st la rq id hname hb1 hb2
    obtain ⟨e1, h1⟩ := emit_singleton c1 st la rq id hb1
    obtain ⟨e2, h2⟩ := emit_singleton c2 st la rq id hb2
    have hs := same c1 c2 st la rq id e1 e2 hname (by rw [h1]; simp) (by rw [h2]; simp)
    rw [h1, h2]
    exact List.Forall₂.cons hs List.Forall₂.nil
  have execs : ∀ (c1 c2 : chilogger), c1.name = c2.name → c1.SinkBound → c2.SinkBound →
      List.Forall₂ Emission.SameContent (c1.middleware W next clock r).emissions
        (c2.middleware W next clock r).emissions := by
    intro c1 c2 hname hb1 hb2
    cases hl : lookupRequestID r with
    | error v =>
      rw [middleware_error W c1 next clock r v hl, middleware_error W c2 next clock r v hl]
      exact List.Forall₂.nil
    | ok id =>
      cases hn : (next r).outcome with
      | panicked v =>
        rw [middleware_panicked W c1 next clock r id v hl hn,
          middleware_panicked W c2 next clock r id v hl hn]
        exact List.Forall₂.nil
      | returned =>
        rw [middleware_returned W c1 next clock r id hl hn,
          middleware_returned W c2 next clock r id hl hn, emissions_cons_serve,
          emissions_cons_serve]
        exact pair c1 c2 _ _ _ id hname hb1 hb2
  refine ⟨?_, ?_, ?_⟩
  · refine ⟨_, _, _, rfl, rfl, rfl, ?_, ?_, ?_⟩
    · exact same ⟨some z, none, none, name⟩ ⟨none, some s, none, name⟩ status latency r
        requestID _ _ rfl (by simp [chilogger.emit]) (by simp [chilogger.emit])
    · exact same ⟨some z, none, none, name⟩ ⟨none, none, some l, name⟩ status latency r
        requestID _ _ rfl (by simp [chilogger.emit]) (by simp [chilogger.emit])
    · exact same ⟨none, some s, none, name⟩ ⟨none, none, some l, name⟩ status latency r
        requestID _ _ rfl (by simp [chilogger.emit]) (by simp [chilogger.emit])
  · exact execs ⟨some z, none, none, name⟩ ⟨none, some s, none, name⟩ rfl
      (Or.inl (by simp)) (Or.inr (Or.inl (by simp)))
  · exact execs ⟨some z, none, none, name⟩ ⟨none, none, some l, name⟩ rfl
      (Or.inl (by simp)) (Or.inr (Or.inr (by simp)))

/-- C8 (as the code has it): a call that returns normally with a sink bound makes one
emission, whose fields remote, request and method are the RemoteAddr, RequestURI and Method
of the request as they stand once the downstream handler has returned: the values the
request arrived with wherever the downstream handler left them unchanged; and the downstream
handler was invoked with the request as it arrived, unaltered by the middleware. -/
theorem C8_request_attributes_logged (W : WrapResponseWriter) (c : chilogger) (next : Handler)
    (clock : Clock) (r : Request)
    (hret : (c.middleware W next clock r).outcome = .returned) (hb : c.SinkBound) :
    (∃ e fs, (c.middleware W next clock r).emissions = [e] ∧
      e.payload.fields? = some fs ∧
      fs.lookup "remote" = some (.str (next r).request.RemoteAddr) ∧
      fs.lookup "request" = some (.str (next r).request.RequestURI) ∧
      fs.lookup "method" = some (.str (next r).request.Method) ∧
      ((next r).request.RemoteAddr = r.RemoteAddr →
        fs.lookup "remote" = some (.str r.RemoteAddr)) ∧
      ((next r).request.RequestURI = r.RequestURI →
        fs.lookup "request" = some (.str r.RequestURI)) ∧
      ((next r).request.Method = r.Method → fs.lookup "method" = some (.str r.Method))) ∧
    (c.middleware W next clock r).trace.head? = some (.serveHTTP r .returned) ∧
    ∀ r2 o, Event.serveHTTP r2 o ∈ (c.middleware W next clock r).trace → r2 = r := by
  obtain ⟨id, e, hid, hn, htr, hem, _, _, hf⟩ := completed_emission W c next clock r hret hb
  obtain ⟨_, _, _, h4, h5, h6, _⟩ :=
    specFieldSet_lookup c.name (W.Status (observed W next r)) (timeSince clock)
      (next r).request id
  refine ⟨⟨e, _, hem, hf, h4, h5, h6, ?_, ?_, ?_⟩, ?_, ?_⟩
  · intro hsame
    rw [h4, hsame]
  · intro hsame
    rw [h5, hsame]
  · intro hsame
    rw [h6, hsame]
  · rw [htr]
    rfl
  · intro r2 o hmem2
    rw [htr] at hmem2
    simp only [List.mem_cons, Event.serveHTTP.injEq, reduceCtorEq, List.mem_singleton,
      List.not_mem_nil, or_false] at hmem2
    exact hmem2.1

/-- Witness of C8: a downstream handler that rewrites the remote address, logged through the
sugared zap logger. -/
theorem C8_request_attributes_logged_witness :
    ((chilogger.middleware chiWriter ⟨none, some 2, none, "svcA"⟩ realIPHandler scenarioClock
        scenarioRequest).outcome = .returned ∧
      chilogger.SinkBound ⟨none, some 2, none, "svcA"⟩) ∧
    (∃ e fs, (chilogger.middleware chiWriter ⟨none, some 2, none, "svcA"⟩ realIPHandler
        scenarioClock scenarioRequest).emissions = [e] ∧
      e.payload.fields? = some fs ∧
      fs.lookup "remote" = some (.str (realIPHandler scenarioRequest).request.RemoteAddr) ∧
      fs.lookup "request" = some (.str (realIPHandler scenarioRequest).request.RequestURI) ∧
      fs.lookup "method" = some (.str (realIPHandler scenarioRequest).request.Method) ∧
      ((realIPHandler scenarioRequest).request.RemoteAddr = scenarioRequest.RemoteAddr →
        fs.lookup "remote" = some (.str scenarioRequest.RemoteAddr)) ∧
      ((realIPHandler scenarioRequest).request.RequestURI = scenarioRequest.RequestURI →
        fs.lookup "request" = some (.str scenarioRequest.RequestURI)) ∧
      ((realIPHandler scenarioRequest).request.Method = scenarioRequest.Method →
        fs.lookup "method" = some (.str scenarioRequest.Method))) ∧
    (chilogger.middleware chiWriter ⟨none, some 2, none, "svcA"⟩ realIPHandler scenarioClock
      scenarioRequest).trace.head? = some (.serveHTTP scenarioRequest .returned) ∧
    ∀ r2 o, Event.serveHTTP r2 o ∈ (chilogger.middleware chiWriter ⟨none, some 2, none, "svcA"⟩
      realIPHandler scenarioClock scenarioRequest).trace → r2 = scenarioRequest :=
  ⟨⟨by decide, Or.inr (Or.inl (by decide))⟩,
    C8_request_attributes_logged chiWriter ⟨none, some 2, none, "svcA"⟩ realIPHandler
      scenarioClock scenarioRequest (by decide) (Or.inr (Or.inl (by decide)))⟩

/-- Counterexample to C8 as stated: behind a downstream handler that assigns a forwarded
address to the RemoteAddr of the request it received, the call completes normally and the
emitted remote field is the assigned address, not the RemoteAddr the request arrived with. -/
theorem C8_counterexample_rewritten_remote :
    scenarioRequest.RemoteAddr = "10.0.0.5:443" ∧
    (NewLogrusMiddleware chiWriter "svcA" (some 3) realIPHandler scenarioClock
        scenarioRequest).outcome = .returned ∧
    (NewLogrusMiddleware chiWriter "svcA" (some 3) realIPHandler scenarioClock
        scenarioRequest).trace.head? = some (.serveHTTP scenarioRequest .returned) ∧
    (NewLogrusMiddleware chiWriter "svcA" (some 3) realIPHandler scenarioClock
        scenarioRequest).emissions.map (fun e => e.payload.fields?.bind (List.lookup "remote")) =
      [some (.str "203.0.113.9")] ∧
    (NewLogrusMiddleware chiWriter "svcA" (some 3) realIPHandler scenarioClock
        scenarioRequest).emissions.map (fun e => e.payload.fields?.bind (List.lookup "remote")) ≠
      [some (.str scenarioRequest.RemoteAddr)] := by
  decide

/-- C9: a call that returns normally with a sink bound makes one emission, which carries a
took field and a field under the key "measure#" ++ name ++ ".latency"; both hold the one
elapsed measurement, the finish reading of the clock (taken after the downstream call) minus
the start reading (taken before it), the first as a duration and the second as the integer
number of nanoseconds; the measurement is the plain difference whenever that fits a duration,
and it is non-negative whenever the finish reading is not earlier than the start reading. -/
theorem C9_latency_fields_consistent (W : WrapResponseWriter) (c : chilogger) (next : Handler)
    (clock : Clock) (r : Request)
    (hret : (c.middleware W next clock r).outcome = .returned) (hb : c.SinkBound) :
    ∃ e fs d, (c.middleware W next clock r).emissions = [e] ∧
      e.payload.fields? = some fs ∧
      d = timeSub clock.finish clock.start ∧
      fs.lookup "took" = some (.duration d) ∧
      fs.lookup ("measure#" ++ c.name ++ ".latency") = some (.int d) ∧
      (minDuration ≤ clock.finish - clock.start ∧ clock.finish - clock.start ≤ maxDuration →
        d = clock.finish - clock.start) ∧
      (clock.start ≤ clock.finish → 0 ≤ d) := by
  obtain ⟨id, e, _, _, _, hem, _, _, hf⟩ := completed_emission W c next clock r hret hb
  obtain ⟨_, h2, h3, _⟩ :=
    specFieldSet_lookup c.name (W.Status (observed W next r)) (timeSince clock)
      (next r).request id
  exact ⟨e, _, timeSince clock, hem, hf, rfl, h2, h3, fun h => timeSub_eq_sub _ _ h,
    fun h => timeSub_nonneg _ _ h⟩

/-- Witness of C9: the scenario request logged through zap, 5ms after the start. -/
theorem C9_latency_fields_consistent_witness :
    ((chilogger.middleware chiWriter ⟨some 1, none, none, "svcA"⟩ createdHandler scenarioClock
        scenarioRequest).outcome = .returned ∧
      chilogger.SinkBound ⟨some 1, none, none, "svcA"⟩) ∧
    ∃ e fs d, (chilogger.middleware chiWriter ⟨some 1, none, none, "svcA"⟩ createdHandler
        scenarioClock scenarioRequest).emissions = [e] ∧
      e.payload.fields? = some fs ∧
      d = timeSub scenarioClock.finish scenarioClock.start ∧
      fs.lookup "took" = some (.duration d) ∧
      fs.lookup ("measure#" ++ "svcA" ++ ".latency") = some (.int d) ∧
      (minDuration ≤ scenarioClock.finish - scenarioClock.start ∧
          scenarioClock.finish - scenarioClock.start ≤ maxDuration →
        d = scenarioClock.finish - scenarioClock.start) ∧
      (scenarioClock.start ≤ scenarioClock.finish → 0 ≤ d) :=
  ⟨⟨by decide, Or.inl (by decide)⟩,
    C9_latency_fields_consistent chiWriter ⟨some 1, none, none, "svcA"⟩ createdHandler
      scenarioClock scenarioRequest (by decide) (Or.inl (by decide))⟩

/-- C10: a call that returns normally with a sink bound makes one emission, whose keys are
status, took, "measure#" ++ name ++ ".latency", remote, request and method, together with
request-id exactly when the request id found by the lookup is not empty, and no other key;
and in the scenario (name svcA, GET /widgets?x=1 from 10.0.0.5:443, status 201, 5ms elapsed)
each of the three constructors emits the record of the specification, with request-id
abc-123 when the context carries it and the same record without that key when it does not. -/
theorem C10_record_keys_and_scenario (W : WrapResponseWriter) (c : chilogger) (next : Handler)
    (clock : Clock) (r : Request)
    (hret : (c.middleware W next clock r).outcome = .returned) (hb : c.SinkBound) :
    (∃ id e fs, lookupRequestID r = .ok id ∧
      (c.middleware W next clock r).emissions = [e] ∧
      e.payload.fields? = some fs ∧
      (fs.map Prod.fst).Perm
        (["status", "took", "measure#" ++ c.name ++ ".latency", "remote", "request", "method"] ++
          (if id = "" then [] else ["request-id"])) ∧
      (fs.map Prod.fst).Nodup) ∧
    (∀ mw ∈ [NewZapMiddleware chiWriter "svcA" (some 1),
        NewZapSugaredMiddleware chiWriter "svcA" (some 1),
        NewLogrusMiddleware chiWriter "svcA" (some 1)],
      (mw createdHandler scenarioClock scenarioRequest).emissions.map
          (fun x => (x.level, x.msg, x.payload.fields?)) =
        [(.info, "request completed",
          some [("status", .int 201), ("took", .duration 5000000),
            ("measure#svcA.latency", .int 5000000), ("remote", .str "10.0.0.5:443"),
            ("request", .str "/widgets?x=1"), ("method", .str "GET"),
            ("request-id", .str "abc-123")])] ∧
      (mw createdHandler scenarioClock scenarioRequestNoID).emissions.map
          (fun x => (x.level, x.msg, x.payload.fields?)) =
        [(.info, "request completed",
          some [("status", .int 201), ("took", .duration 5000000),
            ("measure#svcA.latency", .int 5000000), ("remote", .str "10.0.0.5:443"),
            ("request", .str "/widgets?x=1"), ("method", .str "GET")])]) := by
  constructor
  · obtain ⟨id, e, hid, _, _, hem, _, _, hf⟩ := completed_emission W c next clock r hret hb
    refine ⟨id, e, _, hid, hem, hf, ?_, ?_⟩
    · rw [specFieldSet_keys]
      exact List.Perm.refl _
    · obtain ⟨h1, h2, h3, h4, h5, h6⟩ := latencyKey_ne_fixed c.name
      rw [specFieldSet_keys]
      by_cases hid : id = "" <;>
        simp [hid, h1, h2, h3, h4, h5, h6, Ne.symm h1, Ne.symm h2, Ne.symm h3, Ne.symm h4,
          Ne.symm h5, Ne.symm h6]
  · intro mw hmw
    simp only [List.mem_cons, List.mem_singleton, List.not_mem_nil, or_false] at hmw
    rcases hmw with rfl | rfl | rfl
    · exact ⟨by decide, by decide⟩
    · exact ⟨by decide, by decide⟩
    · exact ⟨by decide, by decide⟩

/-- Witness of C10: the scenario request without a request id, logged through logrus. -/
theorem C10_record_keys_and_scenario_witness :
    ((chilogger.middleware chiWriter ⟨none, none, some 3, "svcA"⟩ createdHandler scenarioClock
        scenarioRequestNoID).outcome = .returned ∧
      chilogger.SinkBound ⟨none, none, some 3, "svcA"⟩) ∧
    ∃ id e fs, lookupRequestID scenarioRequestNoID = .ok id ∧
      (chilogger.middleware chiWriter ⟨none, none, some 3, "svcA"⟩ createdHandler scenarioClock
        scenarioRequestNoID).emissions = [e] ∧
      e.payload.fields? = some fs ∧
      (fs.map Prod.fst).Perm
        (["status", "took", "measure#" ++ "svcA" ++ ".latency", "remote", "request", "method"] ++
          (if id = "" then [] else ["request-id"])) ∧
      (fs.map Prod.fst).Nodup :=
  ⟨⟨by decide, Or.inr (Or.inr (by decide))⟩,
    (C10_record_keys_and_scenario chiWriter ⟨none, none, some 3, "svcA"⟩ createdHandler
      scenarioClock scenarioRequestNoID (by decide) (Or.inr (Or.inr (by decide)))).1⟩

end ChiLogger
